import Mathlib

/-!
Verification development for the streaming task-aggregation and
session-synchronization core of the TechGenie front end.

The embedding below transcribes the ChatView component (handleMessage,
sendMessage, saveChatSession, updateChatSession, openAction,
handleViewHistoryFiles, loadChatSession) together with the constants module
(RESULT_TYPES).  JavaScript string truthiness is modelled by using the empty
string for an absent value; React useState and useRef cells become fields of
an explicit component-state record; asynchronous collaborator calls
(session create and update, navigation, the quota modal, opening a stream)
become effect values collected in a list, in the order the code issues them.
Frames of one stream are processed strictly sequentially, matching the
single-threaded JavaScript execution model.

The delta merger combineData and the task extractor handleTaskData live in
a utility module that is not part of the analysed sources; they are modelled
from the specification and marked as such in their doc comments.
-/

namespace TechGenie

/-- File metadata returned by the file-listing collaborator
(services/file, interface FileInfo). -/
structure FileInfo where
  ossUrl : String
  downloadUrl : String
  domainUrl : String
  requestId : String
  fileName : String
  deriving Repr, DecidableEq

/-- One entry of a task resultMap fileInfo array, as constructed by
handleViewHistoryFiles. -/
structure TaskFileInfo where
  fileName : String
  ossUrl : String
  fileSize : Nat
  domainUrl : String
  deriving Repr, DecidableEq

/-- A renderable task unit (MESSAGE.Task).  The fields are the ones the
analysed component reads or writes: the message type tag, the stable id
used for upserting, the owning turn id, the timestamp, completion flags,
the file attachments built for history restoration, and an otherwise
opaque per-type payload. -/
structure Task where
  messageTime : String
  messageType : String
  fileInfo : List TaskFileInfo
  steps : List String
  requestId : String
  messageId : String
  finish : Bool
  isFinal : Bool
  id : String
  payload : String
  deriving Repr, DecidableEq

/-- A structured multi-step outline for a turn; treated as an opaque value
that is replaced wholesale when a newer plan arrives. -/
structure Plan where
  stages : List String
  deriving Repr, DecidableEq

/-- The partial-results payload of a data frame (resultMap.eventData).
An empty thought or response delta denotes an absent field. -/
structure EventData where
  tasks : List Task
  thought : String
  plan : Option Plan
  responseDelta : String
  deriving Repr, DecidableEq

/-- One chat item (CHAT.ChatItem): the evolving state of a single turn.
The cumulative task list lives in the multiAgent substructure, here
flattened to the field multiAgentTasks. -/
structure ChatItem where
  query : String
  files : List String
  responseType : String
  sessionId : String
  requestId : String
  loading : Bool
  forceStop : Bool
  thought : String
  response : String
  taskStatus : Nat
  tip : String
  multiAgentTasks : List Task
  plan : Option Plan
  deriving Repr, DecidableEq

/-- One inbound frame of the streaming protocol (MESSAGE.Answer).
The empty string models an absent reqId, status or responseAll; eventData
models the optional resultMap.eventData payload. -/
structure Frame where
  packageType : String
  finished : Bool
  reqId : String
  status : String
  eventData : Option EventData
  responseAll : String
  deriving Repr, DecidableEq

/-- Result of the task extractor: the flat ordered task list and the
current plan. -/
structure TaskData where
  taskList : List Task
  plan : Option Plan
  deriving Repr, DecidableEq

/-- The payload handed to the session store on create and update:
the chat list, the session id and the display title. -/
structure SessionPayload where
  chatList : List ChatItem
  sessionId : String
  chatTitle : String
  deriving Repr, DecidableEq

/-- Externally visible actions the component issues while processing,
in issue order: session create, session update, URL navigation, the
quota-exhausted operator notice, and opening a stream. -/
inductive Effect where
  | createSession (reqId : String) (data : SessionPayload)
  | updateSession (reqId : String) (data : SessionPayload)
  | navigate (reqId : String)
  | quotaNotice
  | openStream (sessionId : String) (requestId : String) (query : String)
  deriving Repr, DecidableEq

/-- The component state of ChatView: the useState and useRef cells the
streaming logic reads or writes, plus the propRequestId prop (empty when
the view was not mounted from a URL request id). -/
structure ChatViewState where
  chatTitle : String
  taskList : List Task
  chatList : List ChatItem
  plan : Option Plan
  showAction : Bool
  loading : Bool
  hasNavigated : Bool
  hasSavedSession : Bool
  hasSavedSessionRef : Bool
  propRequestId : String
  sessionId : String
  deriving Repr, DecidableEq

/-- The freshly mounted component state for a given session id and
propRequestId prop. -/
def initialChatViewState (sessionId propRequestId : String) : ChatViewState :=
  { chatTitle := "", taskList := [], chatList := [], plan := none,
    showAction := false, loading := false, hasNavigated := false,
    hasSavedSession := false, hasSavedSessionRef := false,
    propRequestId := propRequestId, sessionId := sessionId }

/-- The fixed two-tag terminal and summary vocabulary
(utils/constants RESULT_TYPES). -/
def RESULT_TYPES : List String := ["task_summary", "result"]

/-- The condition tested by openAction: at least one task whose message
type lies outside RESULT_TYPES. -/
def shouldShowWorkspace (taskList : List Task) : Bool :=
  (taskList.filter fun t => ¬ RESULT_TYPES.contains t.messageType).length ≠ 0

/-- openAction: reveal the workspace when the task list contains a task
whose message type is outside the terminal and summary vocabulary; never
hides it. -/
def openAction (taskList : List Task) (showAction : Bool) : Bool :=
  if shouldShowWorkspace taskList then true else showAction

/-- combineCurrentChat: the fresh chat item created when a query is
submitted. -/
def combineCurrentChat (query : String) (files : List String)
    (sessionId requestId : String) : ChatItem :=
  { query := query, files := files, responseType := "txt",
    sessionId := sessionId, requestId := requestId, loading := true,
    forceStop := false, thought := "", response := "", taskStatus := 0,
    tip := "已接收到你的任务，将立即开始处理...",
    multiAgentTasks := [], plan := none }

/-- Modelled from the spec: one step of the task upsert of the delta
merger (utils/chat combineData is not among the analysed sources).
Upsert a task into the task list by id: replace it in place at its
original position when a task with that id is present, otherwise append
it, preserving arrival order. -/
def upsertTask (t : Task) (ts : List Task) : List Task :=
  if ts.any fun u => u.id = t.id then
    ts.map fun u => if u.id = t.id then t else u
  else
    ts ++ [t]

/-- Modelled from the spec: upsert each contained task of a payload, in
arrival order, into the cumulative task list. -/
def upsertTasks (incoming : List Task) (ts : List Task) : List Task :=
  incoming.foldl (fun acc t => upsertTask t acc) ts

/-- Modelled from the spec: the delta merger (utils/chat combineData is
not among the analysed sources).  Merges one partial-results payload into
the cumulative turn state: tasks are upserted by id; thought is
overwritten only by a non-empty newer value; a newer plan replaces the
old one wholesale; a response delta is appended to the incrementally
accumulated response text. -/
def combineData (e : EventData) (chat : ChatItem) : ChatItem :=
  { chat with
    multiAgentTasks := upsertTasks e.tasks chat.multiAgentTasks,
    thought := if e.thought ≠ "" then e.thought else chat.thought,
    plan := match e.plan with
      | some p => some p
      | none => chat.plan,
    response := chat.response ++ e.responseDelta }

/-- Modelled from the spec: the task extractor (utils/chat handleTaskData
is not among the analysed sources).  Derives the flat, stably ordered
task list and the current plan from cumulative turn state; the ordering
key is arrival order as upserted, never re-sorted. -/
def handleTaskData (chat : ChatItem) : TaskData :=
  { taskList := chat.multiAgentTasks, plan := chat.plan }

/-- The display title handed to the session store:
chatTitle when set, otherwise the first chat item query. -/
def chatTitleOr (s : ChatViewState) : String :=
  if s.chatTitle ≠ "" then s.chatTitle
  else ((s.chatList.head?).map ChatItem.query).getD ""

/-- The one-time save block at the head of handleMessage: when the frame
carries a non-empty reqId, the view has not navigated, it was not mounted
from a URL request id, and the synchronous ref guard is still unset, the
guard is set in the same step and the session create call plus the URL
navigation are issued. -/
def saveGuard (data : Frame) (s : ChatViewState) : ChatViewState × List Effect :=
  if data.reqId ≠ "" ∧ s.hasNavigated = false ∧ s.propRequestId = ""
      ∧ s.hasSavedSessionRef = false then
    ({ s with hasSavedSessionRef := true, hasNavigated := true,
              hasSavedSession := true },
     [Effect.createSession data.reqId
        { chatList := s.chatList, sessionId := s.sessionId,
          chatTitle := chatTitleOr s },
      Effect.navigate data.reqId])
  else
    (s, [])

/-- The resultMap.eventData branch of handleMessage: merge the payload,
re-extract the task list and plan, recompute the workspace gate, handle
the finished flag and the terminal session update, and write the merged
chat item back over the last entry of the shared chat list. -/
def mergeEventData (data : Frame) (ev : EventData) (c0 : ChatItem)
    (s0 : ChatViewState) : ChatItem × ChatViewState × List Effect :=
  let c1 := combineData ev c0
  let td := handleTaskData c1
  let s1 := { s0 with taskList := td.taskList, plan := td.plan,
                      showAction := openAction td.taskList s0.showAction }
  if data.finished then
    let s2 := { s1 with loading := false }
    if data.status = "success" ∧ data.reqId ≠ "" ∧ data.responseAll ≠ "" then
      let c2 := { c1 with loading := false, response := data.responseAll }
      (c2, { s2 with chatList := s2.chatList.dropLast ++ [c2] },
       [Effect.updateSession data.reqId
          { chatList := s2.chatList.dropLast ++ [c2],
            sessionId := s2.sessionId, chatTitle := chatTitleOr s2 }])
    else
      let c2 := { c1 with loading := false }
      (c2, { s2 with chatList := s2.chatList.dropLast ++ [c2] }, [])
  else
    (c1, { s1 with chatList := s1.chatList.dropLast ++ [c1] }, [])

/-- The remainder of handleMessage after the save block: the
quota-exhausted short circuit, then the non-heartbeat data branch. -/
def afterGuard (data : Frame) (c : ChatItem) (s : ChatViewState) :
    ChatItem × ChatViewState × List Effect :=
  if data.status = "tokenUseUp" then
    let td := handleTaskData c
    ({ c with loading := false },
     { s with loading := false, taskList := td.taskList },
     [Effect.quotaNotice])
  else if data.packageType ≠ "heartbeat" then
    match data.eventData with
    | some ev => mergeEventData data ev c s
    | none => (c, s, [])
  else
    (c, s, [])

/-- handleMessage: process one inbound frame against the closure-captured
current chat item and the component state, returning the new chat item,
the new state, and the effects issued, in order. -/
def handleMessage (data : Frame) (c : ChatItem) (s : ChatViewState) :
    ChatItem × ChatViewState × List Effect :=
  let g := saveGuard data s
  let r := afterGuard data c g.1
  (r.1, r.2.1, g.2 ++ r.2.2)

/-- Process a sequence of frames of one stream strictly in order through
handleMessage, concatenating the issued effects. -/
def processFrames : List Frame → ChatItem → ChatViewState →
    ChatItem × ChatViewState × List Effect
  | [], c, s => (c, s, [])
  | f :: fs, c, s =>
    let r := handleMessage f c s
    let rest := processFrames fs r.1 r.2.1
    (rest.1, rest.2.1, r.2.2 ++ rest.2.2)

/-- sendMessage up to the opening of the stream: the early return when
the view was mounted from a URL request id and the input is blank,
otherwise the fresh chat item is appended to the shared chat list, the
title is set if still empty, the save flags are reset for the new
request, loading is set, and the stream open is issued.  The fresh
request id is passed in as a parameter. -/
def sendMessage (message : String) (files : List String)
    (freshRequestId : String) (s : ChatViewState) :
    Option (ChatItem × ChatViewState × List Effect) :=
  if s.propRequestId ≠ "" ∧ message.trim = "" then
    none
  else
    let chat := combineCurrentChat message files s.sessionId freshRequestId
    some (chat,
      { s with chatList := s.chatList ++ [chat],
               chatTitle := if s.chatTitle = "" then message else s.chatTitle,
               hasSavedSession := false, hasNavigated := false,
               hasSavedSessionRef := false, loading := true },
      [Effect.openStream s.sessionId freshRequestId message])

/-- The session store response to a create call. -/
structure CreateResponse where
  success : Bool
  message : String
  deriving Repr, DecidableEq

/-- The session store response to an update call. -/
structure UpdateResponse where
  success : Bool
  message : String
  deriving Repr, DecidableEq

/-- What the component logs while synchronizing with the session store. -/
inductive SyncLog where
  | savedOk
  | saveFailedLogged (message : String)
  | errorLogged (status : Nat)
  | conflictExistsBenign
  | updatedOk
  | updateFailedLogged (message : String)
  deriving Repr, DecidableEq

/-- The try body of saveChatSession: the awaited create call either
resolves to a response or rejects with an HTTP status carried on the
thrown error. -/
def saveChatSessionBody (r : Except Nat CreateResponse) :
    Except Nat (List SyncLog) :=
  match r with
  | Except.error e => Except.error e
  | Except.ok res =>
      Except.ok (if res.success = false then [SyncLog.saveFailedLogged res.message]
                 else [SyncLog.savedOk])

/-- saveChatSession: the create call wrapped in the catch-all of the
component; every rejection is logged, a 409 conflict is additionally
logged as benign, and nothing is rethrown. -/
def saveChatSession (r : Except Nat CreateResponse) :
    Except Nat (List SyncLog) :=
  match saveChatSessionBody r with
  | Except.ok logs => Except.ok logs
  | Except.error status =>
      Except.ok ([SyncLog.errorLogged status] ++
        if status = 409 then [SyncLog.conflictExistsBenign] else [])

/-- The try body of updateChatSession. -/
def updateChatSessionBody (r : Except Nat UpdateResponse) :
    Except Nat (List SyncLog) :=
  match r with
  | Except.error e => Except.error e
  | Except.ok res =>
      Except.ok (if res.success = false then [SyncLog.updateFailedLogged res.message]
                 else [SyncLog.updatedOk])

/-- updateChatSession: the update call wrapped in the catch-all of the
component; every rejection is logged and nothing is rethrown. -/
def updateChatSession (r : Except Nat UpdateResponse) :
    Except Nat (List SyncLog) :=
  match updateChatSessionBody r with
  | Except.ok logs => Except.ok logs
  | Except.error status => Except.ok [SyncLog.errorLogged status]

/-- handleError: the error callback handed to the stream client; it
rethrows the received error unchanged. -/
def handleError (error : Nat) : Except Nat Unit :=
  Except.error error

/-- One file-type task built by handleViewHistoryFiles for a returned
file, at a given position index. -/
def historyFileTask (reqId : String) (i : Nat) (f : FileInfo) : Task :=
  { messageTime := "", messageType := "file",
    fileInfo := [{ fileName := f.fileName, ossUrl := f.ossUrl,
                   fileSize := 0, domainUrl := f.domainUrl }],
    steps := [], requestId := reqId,
    messageId := reqId ++ "-" ++ toString i,
    finish := true, isFinal := true,
    id := reqId ++ "-" ++ toString i, payload := "" }

/-- The chat data restored from the session store by a get call. -/
structure SessionGetData where
  chatList : List ChatItem
  chatTitle : String
  deriving Repr, DecidableEq

/-- The per-item cleanup applied to restored history chat items:
loading and tip are cleared. -/
def restoreChatItem (chat : ChatItem) : ChatItem :=
  { chat with loading := false, tip := "" }

/-- handleViewHistoryFiles: clear the task list, restore the saved chat
list and title from the session store when the get call succeeded with
data, then replace the task list with one file-type task per returned
file and reveal the workspace. -/
def handleViewHistoryFiles (reqId : String) (files : List FileInfo)
    (sessionResult : Except Nat (Option SessionGetData))
    (s : ChatViewState) : ChatViewState :=
  let s1 := { s with taskList := ([] : List Task) }
  let s2 :=
    match sessionResult with
    | Except.ok (some d) =>
        let s' := { s1 with chatList := d.chatList.map restoreChatItem }
        if d.chatTitle ≠ "" then { s' with chatTitle := d.chatTitle } else s'
    | _ => s1
  let fileTasks := files.enum.map fun p => historyFileTask reqId p.1 p.2
  { s2 with taskList := fileTasks, showAction := true }

/-- The history branch of loadChatSession: when the view was entered from
the history page, fetch the file listing for the turn; a non-empty
listing seeds the file task list and opens the workspace via
handleViewHistoryFiles, while an empty listing or a listing failure
clears the task list and hides the workspace. -/
def loadChatSessionFiles (reqId : String) (fromHistory : Bool)
    (fileListing : Except Nat (List FileInfo))
    (sessionResult : Except Nat (Option SessionGetData))
    (s : ChatViewState) : ChatViewState :=
  if fromHistory then
    match fileListing with
    | Except.ok fs =>
        if fs.length > 0 then
          handleViewHistoryFiles reqId fs sessionResult s
        else
          { s with taskList := ([] : List Task), showAction := false }
    | Except.error _ =>
        { s with taskList := ([] : List Task), showAction := false }
  else s

/-- The number of session create calls among a list of issued effects. -/
def createCount (effs : List Effect) : Nat :=
  (effs.filter fun e =>
    match e with
    | Effect.createSession _ _ => true
    | _ => false).length

/-- The number of session update calls among a list of issued effects. -/
def updateCount (effs : List Effect) : Nat :=
  (effs.filter fun e =>
    match e with
    | Effect.updateSession _ _ => true
    | _ => false).length

/-! ## Concrete sample values for scenarios -/

/-- A sample tool-call task as delivered inside a data frame. -/
def sampleTask : Task :=
  { messageTime := "t0", messageType := "tool_call", fileInfo := [],
    steps := [], requestId := "r1", messageId := "m1", finish := false,
    isFinal := false, id := "t1", payload := "p1" }

/-- The same task id with a different payload. -/
def sampleTask2 : Task := { sampleTask with payload := "p2" }

/-- A sample partial-results payload carrying one task. -/
def sampleEventData : EventData :=
  { tasks := [sampleTask], thought := "", plan := none, responseDelta := "" }

/-- An empty partial-results payload. -/
def emptyEventData : EventData :=
  { tasks := [], thought := "", plan := none, responseDelta := "" }

/-- A sample non-terminal data frame of turn r1 carrying one task. -/
def sampleDataFrame : Frame :=
  { packageType := "data", finished := false, reqId := "r1", status := "",
    eventData := some sampleEventData, responseAll := "" }

/-- A quota-exhausted status frame. -/
def quotaFrame : Frame :=
  { packageType := "data", finished := false, reqId := "", status := "tokenUseUp",
    eventData := none, responseAll := "" }

/-- A heartbeat frame. -/
def heartbeatFrame : Frame :=
  { packageType := "heartbeat", finished := false, reqId := "", status := "",
    eventData := none, responseAll := "" }

/-- A terminal frame that carries the full response text but whose status
is not the success status. -/
def failedTerminalFrame : Frame :=
  { packageType := "data", finished := true, reqId := "r1", status := "error",
    eventData := some emptyEventData, responseAll := "FULL" }

/-- A terminal success frame of turn r1 carrying the full response text. -/
def successTerminalFrame : Frame :=
  { packageType := "data", finished := true, reqId := "r1", status := "success",
    eventData := some sampleEventData, responseAll := "Hello back" }

/-- The chat item created for the query hello on turn r1. -/
def sampleChat : ChatItem := combineCurrentChat "hello" [] "s1" "r1"

/-- A placeholder step result used only as the default of an Option read. -/
def dummyStep : ChatItem × ChatViewState × List Effect :=
  (combineCurrentChat "" [] "" "", initialChatViewState "" "", [])

/-- Scenario: the state after submitting q1 (turn r1) on a fresh view. -/
def c7AfterFirstSend : ChatItem × ChatViewState × List Effect :=
  (sendMessage "q1" [] "r1" (initialChatViewState "s1" "")).getD dummyStep

/-- Scenario: the state after then submitting q2 (turn r2), superseding
the r1 stream. -/
def c7AfterSecondSend : ChatItem × ChatViewState × List Effect :=
  (sendMessage "q2" [] "r2" c7AfterFirstSend.2.1).getD dummyStep

/-- Scenario: a late r1 data frame delivered to the superseded r1 handler
(with its captured chat item) against the current component state. -/
def c7LateResult : ChatItem × ChatViewState × List Effect :=
  handleMessage sampleDataFrame c7AfterFirstSend.1 c7AfterSecondSend.2.1

/-- A sample file returned by the file-listing collaborator. -/
def sampleFile : FileInfo :=
  { ossUrl := "oss://a", downloadUrl := "dl://a", domainUrl := "dom://a",
    requestId := "r1", fileName := "report.html" }

/-! ## Helper lemmas -/

/-- The remaining create budget of a state: one create is still possible
while the synchronous ref guard is unset, none afterwards. -/
def refBudget (s : ChatViewState) : Nat :=
  if s.hasSavedSessionRef then 0 else 1

theorem createCount_append (a b : List Effect) :
    createCount (a ++ b) = createCount a + createCount b := by
  simp [createCount, List.filter_append]

theorem afterGuard_createCount (d : Frame) (c : ChatItem) (s : ChatViewState) :
    createCount (afterGuard d c s).2.2 = 0 := by
  unfold afterGuard mergeEventData
  split
  · rfl
  · split
    · split
      · split
        · split
          · rfl
          · rfl
        · rfl
      · rfl
    · rfl

theorem afterGuard_ref (d : Frame) (c : ChatItem) (s : ChatViewState) :
    (afterGuard d c s).2.1.hasSavedSessionRef = s.hasSavedSessionRef := by
  unfold afterGuard mergeEventData
  split
  · rfl
  · split
    · split
      · split
        · split
          · rfl
          · rfl
        · rfl
      · rfl
    · rfl

theorem afterGuard_prop (d : Frame) (c : ChatItem) (s : ChatViewState) :
    (afterGuard d c s).2.1.propRequestId = s.propRequestId := by
  unfold afterGuard mergeEventData
  split
  · rfl
  · split
    · split
      · split
        · split
          · rfl
          · rfl
        · rfl
      · rfl
    · rfl

theorem saveGuard_budget (d : Frame) (s : ChatViewState) :
    createCount (saveGuard d s).2 + refBudget (saveGuard d s).1 ≤ refBudget s := by
  unfold saveGuard
  split
  · rename_i h
    simp [createCount, refBudget, h.2.2.2]
  · simp [createCount]

theorem saveGuard_prop (d : Frame) (s : ChatViewState) :
    (saveGuard d s).1.propRequestId = s.propRequestId := by
  unfold saveGuard
  split
  · rfl
  · rfl

theorem saveGuard_of_prop (d : Frame) (s : ChatViewState)
    (h : s.propRequestId ≠ "") : saveGuard d s = (s, []) := by
  unfold saveGuard
  split
  · rename_i hc
    exact absurd hc.2.2.1 h
  · rfl

theorem handleMessage_budget (d : Frame) (c : ChatItem) (s : ChatViewState) :
    createCount (handleMessage d c s).2.2 + refBudget (handleMessage d c s).2.1
      ≤ refBudget s := by
  show createCount ((saveGuard d s).2 ++ (afterGuard d c (saveGuard d s).1).2.2)
        + refBudget (afterGuard d c (saveGuard d s).1).2.1 ≤ refBudget s
  rw [createCount_append, afterGuard_createCount]
  have h := afterGuard_ref d c (saveGuard d s).1
  unfold refBudget
  rw [h]
  have h2 := saveGuard_budget d s
  unfold refBudget at h2
  omega

theorem handleMessage_prop (d : Frame) (c : ChatItem) (s : ChatViewState) :
    (handleMessage d c s).2.1.propRequestId = s.propRequestId := by
  show (afterGuard d c (saveGuard d s).1).2.1.propRequestId = s.propRequestId
  rw [afterGuard_prop, saveGuard_prop]

theorem handleMessage_noCreate_of_prop (d : Frame) (c : ChatItem)
    (s : ChatViewState) (h : s.propRequestId ≠ "") :
    createCount (handleMessage d c s).2.2 = 0 := by
  show createCount ((saveGuard d s).2 ++ (afterGuard d c (saveGuard d s).1).2.2) = 0
  rw [createCount_append, afterGuard_createCount, saveGuard_of_prop d s h]
  rfl

theorem processFrames_budget (fs : List Frame) (c : ChatItem) (s : ChatViewState) :
    createCount (processFrames fs c s).2.2 + refBudget (processFrames fs c s).2.1
      ≤ refBudget s := by
  induction fs generalizing c s with
  | nil => simp [processFrames, createCount]
  | cons f fs ih =>
    show createCount ((handleMessage f c s).2.2 ++
          (processFrames fs (handleMessage f c s).1 (handleMessage f c s).2.1).2.2)
        + refBudget (processFrames fs (handleMessage f c s).1
            (handleMessage f c s).2.1).2.1 ≤ refBudget s
    rw [createCount_append]
    have h1 := handleMessage_budget f c s
    have h2 := ih (handleMessage f c s).1 (handleMessage f c s).2.1
    omega

theorem processFrames_prop (fs : List Frame) (c : ChatItem) (s : ChatViewState) :
    (processFrames fs c s).2.1.propRequestId = s.propRequestId := by
  induction fs generalizing c s with
  | nil => rfl
  | cons f fs ih =>
    show (processFrames fs (handleMessage f c s).1
        (handleMessage f c s).2.1).2.1.propRequestId = s.propRequestId
    rw [ih, handleMessage_prop]

theorem processFrames_noCreate_of_prop (fs : List Frame) (c : ChatItem)
    (s : ChatViewState) (h : s.propRequestId ≠ "") :
    createCount (processFrames fs c s).2.2 = 0 := by
  induction fs generalizing c s with
  | nil => rfl
  | cons f fs ih =>
    show createCount ((handleMessage f c s).2.2 ++
        (processFrames fs (handleMessage f c s).1 (handleMessage f c s).2.1).2.2) = 0
    rw [createCount_append, handleMessage_noCreate_of_prop f c s h,
        ih _ _ (by rw [handleMessage_prop]; exact h)]

theorem handleMessage_fst (d : Frame) (c : ChatItem) (s : ChatViewState) :
    (handleMessage d c s).1 = (afterGuard d c (saveGuard d s).1).1 := rfl

theorem handleMessage_state (d : Frame) (c : ChatItem) (s : ChatViewState) :
    (handleMessage d c s).2.1 = (afterGuard d c (saveGuard d s).1).2.1 := rfl

theorem handleMessage_effs (d : Frame) (c : ChatItem) (s : ChatViewState) :
    (handleMessage d c s).2.2
      = (saveGuard d s).2 ++ (afterGuard d c (saveGuard d s).1).2.2 := rfl

theorem saveGuard_chatList (d : Frame) (s : ChatViewState) :
    (saveGuard d s).1.chatList = s.chatList := by
  unfold saveGuard; split <;> rfl

theorem saveGuard_sessionId (d : Frame) (s : ChatViewState) :
    (saveGuard d s).1.sessionId = s.sessionId := by
  unfold saveGuard; split <;> rfl

theorem saveGuard_chatTitle (d : Frame) (s : ChatViewState) :
    (saveGuard d s).1.chatTitle = s.chatTitle := by
  unfold saveGuard; split <;> rfl

theorem saveGuard_showAction (d : Frame) (s : ChatViewState) :
    (saveGuard d s).1.showAction = s.showAction := by
  unfold saveGuard; split <;> rfl

theorem chatTitleOr_saveGuard (d : Frame) (s : ChatViewState) :
    chatTitleOr (saveGuard d s).1 = chatTitleOr s := by
  unfold chatTitleOr
  rw [saveGuard_chatTitle, saveGuard_chatList]

theorem afterGuard_quota (d : Frame) (c : ChatItem) (s : ChatViewState)
    (h : d.status = "tokenUseUp") :
    afterGuard d c s = ({ c with loading := false },
      { s with loading := false, taskList := (handleTaskData c).taskList },
      [Effect.quotaNotice]) := by
  unfold afterGuard
  rw [if_pos h]

theorem afterGuard_data (d : Frame) (c : ChatItem) (s : ChatViewState)
    (h1 : d.status ≠ "tokenUseUp") (h2 : d.packageType ≠ "heartbeat")
    (ev : EventData) (h3 : d.eventData = some ev) :
    afterGuard d c s = mergeEventData d ev c s := by
  unfold afterGuard
  rw [if_neg h1, if_pos h2, h3]

theorem mergeEventData_tasks (d : Frame) (ev : EventData) (c : ChatItem)
    (s : ChatViewState) :
    (mergeEventData d ev c s).1.multiAgentTasks
      = upsertTasks ev.tasks c.multiAgentTasks := by
  unfold mergeEventData
  split
  · split
    · rfl
    · rfl
  · rfl

theorem mergeEventData_requestId (d : Frame) (ev : EventData) (c : ChatItem)
    (s : ChatViewState) :
    (mergeEventData d ev c s).1.requestId = c.requestId := by
  unfold mergeEventData
  split
  · split
    · rfl
    · rfl
  · rfl

theorem mergeEventData_chatList (d : Frame) (ev : EventData) (c : ChatItem)
    (s : ChatViewState) :
    (mergeEventData d ev c s).2.1.chatList
      = s.chatList.dropLast ++ [(mergeEventData d ev c s).1] := by
  unfold mergeEventData
  split
  · split
    · rfl
    · rfl
  · rfl

theorem mergeEventData_success_response (d : Frame) (ev : EventData)
    (c : ChatItem) (s : ChatViewState) (hfin : d.finished = true)
    (hc : d.status = "success" ∧ d.reqId ≠ "" ∧ d.responseAll ≠ "") :
    (mergeEventData d ev c s).1.response = d.responseAll := by
  unfold mergeEventData
  split
  · rfl
  · rename_i h
    simp [hfin] at h

theorem mergeEventData_success_effs (d : Frame) (ev : EventData)
    (c : ChatItem) (s : ChatViewState) (hfin : d.finished = true)
    (hc : d.status = "success" ∧ d.reqId ≠ "" ∧ d.responseAll ≠ "") :
    (mergeEventData d ev c s).2.2
      = [Effect.updateSession d.reqId
          { chatList := s.chatList.dropLast ++ [(mergeEventData d ev c s).1],
            sessionId := s.sessionId, chatTitle := chatTitleOr s }] := by
  unfold mergeEventData
  split
  · rfl
  · rename_i h
    simp [hfin] at h

theorem handleMessage_heartbeat (d : Frame) (c : ChatItem) (s : ChatViewState)
    (h : d.packageType = "heartbeat") :
    (handleMessage d c s).1.multiAgentTasks = c.multiAgentTasks
    ∧ (handleMessage d c s).1.plan = c.plan
    ∧ (handleMessage d c s).1.response = c.response
    ∧ (handleMessage d c s).1.thought = c.thought := by
  rw [handleMessage_fst]
  unfold afterGuard
  split
  · exact ⟨rfl, rfl, rfl, rfl⟩
  · split
    all_goals first
      | (rename_i hne; exact absurd h hne)
      | exact ⟨rfl, rfl, rfl, rfl⟩

/-! ## Claim theorems -/

/-- C1: For every stream handler generation, the session create call is
issued at most once across any sequence of frames, however many of them
carry the turn id: the synchronous ref guard is set in the same step as
the check, before the asynchronous create call starts, so a second
back-to-back frame carrying the same turn id can never observe the
unsaved state. -/
theorem session_create_at_most_once (fs : List Frame) (c : ChatItem)
    (s : ChatViewState) :
    createCount (processFrames fs c s).2.2 ≤ 1 := by
  have h := processFrames_budget fs c s
  have h2 : refBudget s ≤ 1 := by
    unfold refBudget
    split <;> omega
  omega

/-- C4: A sequence of heartbeat frames leaves the turn state's task list,
plan, and accumulated response text unchanged. -/
theorem heartbeats_preserve_turn_state (fs : List Frame) (c : ChatItem)
    (s : ChatViewState) (h : ∀ f ∈ fs, f.packageType = "heartbeat") :
    (processFrames fs c s).1.multiAgentTasks = c.multiAgentTasks
    ∧ (processFrames fs c s).1.plan = c.plan
    ∧ (processFrames fs c s).1.response = c.response := by
  induction fs generalizing c s with
  | nil => exact ⟨rfl, rfl, rfl⟩
  | cons f fs ih =>
    have hf := h f (List.mem_cons_self f fs)
    have hrest : ∀ g ∈ fs, g.packageType = "heartbeat" :=
      fun g hg => h g (List.mem_cons_of_mem f hg)
    have h1 := handleMessage_heartbeat f c s hf
    have h2 := ih (handleMessage f c s).1 (handleMessage f c s).2.1 hrest
    refine ⟨?_, ?_, ?_⟩
    · show (processFrames fs (handleMessage f c s).1
          (handleMessage f c s).2.1).1.multiAgentTasks = _
      rw [h2.1, h1.1]
    · show (processFrames fs (handleMessage f c s).1
          (handleMessage f c s).2.1).1.plan = _
      rw [h2.2.1, h1.2.1]
    · show (processFrames fs (handleMessage f c s).1
          (handleMessage f c s).2.1).1.response = _
      rw [h2.2.2, h1.2.2.1]

/-- Witness for C4: two concrete heartbeat frames leave a concrete turn
state unchanged. -/
theorem heartbeats_preserve_turn_state_witness :
    (processFrames [heartbeatFrame, heartbeatFrame] sampleChat
        (initialChatViewState "s1" "")).1.multiAgentTasks = sampleChat.multiAgentTasks
    ∧ (processFrames [heartbeatFrame, heartbeatFrame] sampleChat
        (initialChatViewState "s1" "")).1.response = sampleChat.response := by
  have h := heartbeats_preserve_turn_state [heartbeatFrame, heartbeatFrame]
    sampleChat (initialChatViewState "s1" "") (by decide)
  exact ⟨h.1, h.2.2⟩

/-- C5: The workspace gate is true exactly when some task's message type
lies outside the fixed two-tag vocabulary RESULT_TYPES; it is false on
the empty list and on lists containing only those two tags; and once the
workspace is visible, a task-list update through openAction never resets
it to false. -/
theorem workspace_gate_spec :
    (∀ ts : List Task,
        shouldShowWorkspace ts = true ↔ ∃ t ∈ ts, t.messageType ∉ RESULT_TYPES)
    ∧ shouldShowWorkspace [] = false
    ∧ (∀ ts : List Task, (∀ t ∈ ts, t.messageType ∈ RESULT_TYPES) →
        shouldShowWorkspace ts = false)
    ∧ (∀ ts : List Task, openAction ts true = true) := by
  have hiff : ∀ ts : List Task,
      shouldShowWorkspace ts = true ↔ ∃ t ∈ ts, t.messageType ∉ RESULT_TYPES := by
    intro ts
    unfold shouldShowWorkspace
    simp [List.length_eq_zero, List.filter_eq_nil_iff]
  refine ⟨hiff, rfl, ?_, ?_⟩
  · intro ts h
    cases hw : shouldShowWorkspace ts with
    | false => rfl
    | true =>
      obtain ⟨t, ht, hout⟩ := (hiff ts).mp hw
      exact absurd (h t ht) hout
  · intro ts
    unfold openAction
    split
    · rfl
    · rfl

/-- Witness for C5: the gate on the concrete lists of the specification
examples. -/
theorem workspace_gate_spec_witness :
    shouldShowWorkspace [sampleTask] = true
    ∧ openAction [] true = true := by
  constructor
  · exact (workspace_gate_spec.1 [sampleTask]).mpr
      ⟨sampleTask, List.mem_singleton_self sampleTask, by decide⟩
  · exact workspace_gate_spec.2.2.2 []

/-- C2 counterexample: after a quota-exhausted frame has marked the turn
finished, a subsequent data frame is still processed: its task is merged
into the task list, so subsequent frames are not ignored. -/
theorem quota_subsequent_frame_merged_cex :
    (processFrames [quotaFrame] sampleChat (initialChatViewState "s1" "")).1.loading = false
    ∧ (processFrames [quotaFrame, sampleDataFrame] sampleChat
        (initialChatViewState "s1" "")).1.multiAgentTasks = [sampleTask]
    ∧ (processFrames [quotaFrame, sampleDataFrame] sampleChat
        (initialChatViewState "s1" "")).1.multiAgentTasks ≠ sampleChat.multiAgentTasks := by
  refine ⟨by decide, by decide, by decide⟩

/-- C2 (amended): a quota-exhausted status frame marks the turn finished
immediately, does not merge that frame's payload into the task list,
thought, plan, or response, and raises the distinct quota notice; however
the stream handler keeps processing subsequent frames normally: a later
data frame still has its tasks merged. -/
theorem quota_short_circuit (f g : Frame) (ev : EventData) (c : ChatItem)
    (s : ChatViewState) (hf : f.status = "tokenUseUp")
    (hg : g.status ≠ "tokenUseUp") (hgp : g.packageType ≠ "heartbeat")
    (hge : g.eventData = some ev) :
    (handleMessage f c s).1.loading = false
    ∧ (handleMessage f c s).1.multiAgentTasks = c.multiAgentTasks
    ∧ (handleMessage f c s).1.response = c.response
    ∧ (handleMessage f c s).1.thought = c.thought
    ∧ (handleMessage f c s).1.plan = c.plan
    ∧ Effect.quotaNotice ∈ (handleMessage f c s).2.2
    ∧ (processFrames [f, g] c s).1.multiAgentTasks
        = upsertTasks ev.tasks c.multiAgentTasks := by
  have hcq : (handleMessage f c s).1 = { c with loading := false } := by
    rw [handleMessage_fst, afterGuard_quota _ _ _ hf]
  refine ⟨?_, ?_, ?_, ?_, ?_, ?_, ?_⟩
  · rw [hcq]
  · rw [hcq]
  · rw [hcq]
  · rw [hcq]
  · rw [hcq]
  · rw [handleMessage_effs, afterGuard_quota _ _ _ hf]
    simp
  · show (handleMessage g (handleMessage f c s).1
        (handleMessage f c s).2.1).1.multiAgentTasks = _
    rw [handleMessage_fst, afterGuard_data _ _ _ hg hgp ev hge,
        mergeEventData_tasks, hcq]

/-- Witness for C2 (amended): the concrete quota frame followed by a
concrete data frame. -/
theorem quota_short_circuit_witness :
    (handleMessage quotaFrame sampleChat (initialChatViewState "s1" "")).1.loading = false
    ∧ (processFrames [quotaFrame, sampleDataFrame] sampleChat
        (initialChatViewState "s1" "")).1.multiAgentTasks
      = upsertTasks sampleEventData.tasks sampleChat.multiAgentTasks := by
  have h := quota_short_circuit quotaFrame sampleDataFrame sampleEventData
    sampleChat (initialChatViewState "s1" "") rfl (by decide) (by decide) rfl
  exact ⟨h.1, h.2.2.2.2.2.2⟩

/-- C3 counterexample: a terminal data frame that carries the full
response text but whose status is not success fires no session update
and does not overwrite the accumulated response. -/
theorem terminal_full_text_no_update_cex :
    updateCount (handleMessage failedTerminalFrame sampleChat
        (initialChatViewState "s1" "")).2.2 = 0
    ∧ (handleMessage failedTerminalFrame sampleChat
        (initialChatViewState "s1" "")).1.response ≠ "FULL" := by
  refine ⟨by decide, by decide⟩

/-- C3 (amended): on a frame that is terminal, has the success status, a
non-empty reqId, the full response text, and a partial-results payload,
the accumulated response is overwritten by the full text (replaced, not
appended), and a session update fires whose payload is the wholesale
overwrite of the stored record: the shared chat list with its last entry
replaced by the full updated turn record. -/
theorem terminal_success_update_overwrites (d : Frame) (ev : EventData)
    (c : ChatItem) (s : ChatViewState)
    (hhb : d.packageType ≠ "heartbeat") (hfin : d.finished = true)
    (hs : d.status = "success") (hreq : d.reqId ≠ "") (hresp : d.responseAll ≠ "")
    (hev : d.eventData = some ev) :
    (handleMessage d c s).1.response = d.responseAll
    ∧ Effect.updateSession d.reqId
        { chatList := s.chatList.dropLast ++ [(handleMessage d c s).1],
          sessionId := s.sessionId, chatTitle := chatTitleOr s }
        ∈ (handleMessage d c s).2.2
    ∧ (handleMessage d c s).2.1.chatList
        = s.chatList.dropLast ++ [(handleMessage d c s).1] := by
  have hnt : d.status ≠ "tokenUseUp" := by
    rw [hs]
    decide
  have hc : d.status = "success" ∧ d.reqId ≠ "" ∧ d.responseAll ≠ "" :=
    ⟨hs, hreq, hresp⟩
  have hag : afterGuard d c (saveGuard d s).1 = mergeEventData d ev c (saveGuard d s).1 :=
    afterGuard_data d c (saveGuard d s).1 hnt hhb ev hev
  refine ⟨?_, ?_, ?_⟩
  · rw [handleMessage_fst, hag, mergeEventData_success_response d ev c _ hfin hc]
  · rw [handleMessage_effs, handleMessage_fst, hag,
        mergeEventData_success_effs d ev c _ hfin hc,
        saveGuard_chatList, saveGuard_sessionId, chatTitleOr_saveGuard]
    exact List.mem_append_right _ (List.mem_singleton_self _)
  · rw [handleMessage_state, handleMessage_fst, hag, mergeEventData_chatList,
        saveGuard_chatList]

/-- Witness for C3 (amended): the concrete terminal success frame. -/
theorem terminal_success_update_witness :
    (handleMessage successTerminalFrame sampleChat
        (initialChatViewState "s1" "")).1.response = successTerminalFrame.responseAll
    ∧ (handleMessage successTerminalFrame sampleChat
        (initialChatViewState "s1" "")).2.1.chatList
      = (initialChatViewState "s1" "").chatList.dropLast
          ++ [(handleMessage successTerminalFrame sampleChat
                (initialChatViewState "s1" "")).1] := by
  have h := terminal_success_update_overwrites successTerminalFrame sampleEventData
    sampleChat (initialChatViewState "s1" "") (by decide) rfl rfl (by decide)
    (by decide) rfl
  exact ⟨h.1, h.2.2⟩

/-- C6 counterexample: the stream error callback rethrows the transport
error onward instead of converting it to local state. -/
theorem stream_error_rethrown_cex : handleError 500 = Except.error 500 := rfl

/-- C6 (amended): persistence failures of the session create and update
calls are caught at the component boundary and only logged — a 409
create conflict is additionally logged as benign — and are never
propagated; the stream transport error callback, however, rethrows its
error onward instead of converting it to local state. -/
theorem persistence_failures_swallowed :
    (∀ r : Except Nat CreateResponse, ∃ logs, saveChatSession r = Except.ok logs)
    ∧ saveChatSession (Except.error 409)
        = Except.ok [SyncLog.errorLogged 409, SyncLog.conflictExistsBenign]
    ∧ (∀ r : Except Nat UpdateResponse, ∃ logs, updateChatSession r = Except.ok logs)
    ∧ (∀ e : Nat, handleError e = Except.error e) := by
  refine ⟨?_, rfl, ?_, fun e => rfl⟩
  · intro r
    cases r with
    | error e => exact ⟨_, rfl⟩
    | ok res => exact ⟨_, rfl⟩
  · intro r
    cases r with
    | error e => exact ⟨_, rfl⟩
    | ok res => exact ⟨_, rfl⟩

/-- C7 counterexample: after submitting q1 (turn r1) and then q2 (turn
r2), the last entry of the shared chat list belongs to r2; delivering a
late r1 data frame to the superseded r1 handler overwrites that entry
with the superseded turn's state, so the late callback is not discarded
and mutates the current turn's display state. -/
theorem late_callback_mutates_cex :
    (c7AfterSecondSend.2.1.chatList.getLast?).map ChatItem.requestId = some "r2"
    ∧ (c7LateResult.2.1.chatList.getLast?).map ChatItem.requestId = some "r1" := by
  refine ⟨by decide, by decide⟩

/-- C7 (amended): the component keeps no generation token: any data frame
handed to a handler — also one whose stream has been superseded — is
processed unconditionally, overwriting the last entry of the shared chat
list with a chat item of the handler's own captured turn. -/
theorem late_callback_overwrites_last_chat (d : Frame) (ev : EventData)
    (c : ChatItem) (s : ChatViewState)
    (h1 : d.status ≠ "tokenUseUp") (h2 : d.packageType ≠ "heartbeat")
    (h3 : d.eventData = some ev) :
    (handleMessage d c s).2.1.chatList
      = s.chatList.dropLast ++ [(handleMessage d c s).1]
    ∧ (handleMessage d c s).1.requestId = c.requestId := by
  have hag : afterGuard d c (saveGuard d s).1 = mergeEventData d ev c (saveGuard d s).1 :=
    afterGuard_data d c (saveGuard d s).1 h1 h2 ev h3
  constructor
  · rw [handleMessage_state, handleMessage_fst, hag, mergeEventData_chatList,
        saveGuard_chatList]
  · rw [handleMessage_fst, hag, mergeEventData_requestId]

/-- Witness for C7 (amended): the concrete late r1 frame processed by the
r1 handler keeps the superseded turn id on the written chat item. -/
theorem late_callback_overwrites_witness :
    (handleMessage sampleDataFrame sampleChat
        (initialChatViewState "s1" "")).1.requestId = sampleChat.requestId := by
  exact (late_callback_overwrites_last_chat sampleDataFrame sampleEventData
    sampleChat (initialChatViewState "s1" "") (by decide) (by decide) rfl).2

theorem upsertTask_fresh (t : Task) (ts : List Task)
    (h : ∀ u ∈ ts, u.id ≠ t.id) : upsertTask t ts = ts ++ [t] := by
  unfold upsertTask
  split
  · rename_i hany
    rw [List.any_eq_true] at hany
    obtain ⟨u, hu, he⟩ := hany
    rw [decide_eq_true_eq] at he
    exact absurd he (h u hu)
  · rfl

theorem upsertTask_length (t : Task) (ts : List Task) :
    ts.length ≤ (upsertTask t ts).length := by
  unfold upsertTask
  split
  · rw [List.length_map]
  · rw [List.length_append]
    omega

theorem upsertTasks_length (incoming ts : List Task) :
    ts.length ≤ (upsertTasks incoming ts).length := by
  induction incoming generalizing ts with
  | nil => exact le_rfl
  | cons a as ih =>
    show ts.length ≤ (upsertTasks as (upsertTask a ts)).length
    exact le_trans (upsertTask_length a ts) (ih (upsertTask a ts))

theorem upsertTask_preserves_ids (t u : Task) (ts : List Task) (hu : u ∈ ts) :
    ∃ v ∈ upsertTask t ts, v.id = u.id := by
  unfold upsertTask
  split
  · refine ⟨if u.id = t.id then t else u, List.mem_map_of_mem _ hu, ?_⟩
    split
    · rename_i h
      exact h.symm
    · rfl
  · exact ⟨u, List.mem_append_left _ hu, rfl⟩

theorem sendMessage_propRequestId (m : String) (files : List String)
    (rid : String) (s : ChatViewState)
    (r : ChatItem × ChatViewState × List Effect)
    (h : sendMessage m files rid s = some r) :
    r.2.1.propRequestId = s.propRequestId := by
  unfold sendMessage at h
  split at h
  · exact Option.noConfusion h
  · injection h with h'
    subst h'
    rfl

/-- C8 (spec-modelled delta merger): upserting the same task id twice,
the second time with a different payload, yields one entry carrying the
latest payload at the original position; the task list length is
monotonically non-decreasing under upserts and under merging a payload;
and no task is ever removed: every task id present before an upsert is
still present after it. -/
theorem task_upsert_spec :
    (∀ (ts : List Task) (t t' : Task), t'.id = t.id → (∀ u ∈ ts, u.id ≠ t.id) →
        upsertTask t' (upsertTask t ts) = ts ++ [t'])
    ∧ (∀ (t : Task) (ts : List Task), ts.length ≤ (upsertTask t ts).length)
    ∧ (∀ (incoming ts : List Task), ts.length ≤ (upsertTasks incoming ts).length)
    ∧ (∀ (e : EventData) (c : ChatItem),
        c.multiAgentTasks.length ≤ (combineData e c).multiAgentTasks.length)
    ∧ (∀ (t u : Task) (ts : List Task), u ∈ ts →
        ∃ v ∈ upsertTask t ts, v.id = u.id) := by
  refine ⟨?_, upsertTask_length, upsertTasks_length, ?_, upsertTask_preserves_ids⟩
  · intro ts t t' hid h
    rw [upsertTask_fresh t ts h]
    unfold upsertTask
    split
    · rw [List.map_append]
      have h1 : ts.map (fun u => if u.id = t'.id then t' else u) = ts := by
        rw [List.map_congr_left (fun u hu => if_neg (by rw [hid]; exact h u hu))]
        exact List.map_id' ts
      have h2 : [t].map (fun u => if u.id = t'.id then t' else u) = [t'] := by
        rw [List.map_singleton, if_pos hid.symm]
      rw [h1, h2]
    · rename_i hany
      exfalso
      apply hany
      rw [List.any_eq_true]
      exact ⟨t, List.mem_append_right ts (List.mem_singleton_self t),
        by rw [decide_eq_true_eq, hid]⟩
  · intro e c
    exact upsertTasks_length e.tasks c.multiAgentTasks

/-- Witness for C8: upserting the sample task id twice with two payloads
yields the single latest entry. -/
theorem task_upsert_spec_witness :
    upsertTask sampleTask2 (upsertTask sampleTask ([] : List Task)) = [sampleTask2] := by
  have h := task_upsert_spec.1 [] sampleTask sampleTask2 rfl
    (by intro u hu; cases hu)
  simpa using h

/-- C9: when a turn is restored from history and the file-listing
collaborator returns a non-empty file list, the workspace is opened and
the task list is replaced by exactly one file-type task per returned
file, independent of the previously streamed task list; with no files
the task list is cleared and the workspace is hidden. -/
theorem history_restore_files_spec (reqId : String) (files : List FileInfo)
    (sres : Except Nat (Option SessionGetData)) (s : ChatViewState)
    (hne : files.length > 0) :
    (loadChatSessionFiles reqId true (Except.ok files) sres s).showAction = true
    ∧ (loadChatSessionFiles reqId true (Except.ok files) sres s).taskList
        = files.enum.map (fun p => historyFileTask reqId p.1 p.2)
    ∧ (loadChatSessionFiles reqId true (Except.ok files) sres s).taskList.length
        = files.length
    ∧ (∀ t ∈ (loadChatSessionFiles reqId true (Except.ok files) sres s).taskList,
        t.messageType = "file")
    ∧ (loadChatSessionFiles reqId true (Except.ok []) sres s).taskList = []
    ∧ (loadChatSessionFiles reqId true (Except.ok []) sres s).showAction = false := by
  have hred : loadChatSessionFiles reqId true (Except.ok files) sres s
      = handleViewHistoryFiles reqId files sres s := by
    show (if files.length > 0 then handleViewHistoryFiles reqId files sres s
          else { s with taskList := ([] : List Task), showAction := false }) = _
    rw [if_pos hne]
  have htl : (handleViewHistoryFiles reqId files sres s).taskList
      = files.enum.map (fun p => historyFileTask reqId p.1 p.2) := rfl
  refine ⟨?_, ?_, ?_, ?_, rfl, rfl⟩
  · rw [hred]
    rfl
  · rw [hred, htl]
  · rw [hred, htl, List.length_map, List.enum_length]
  · rw [hred, htl]
    intro t ht
    obtain ⟨p, hp, hpt⟩ := List.mem_map.mp ht
    rw [← hpt]
    rfl

/-- Witness for C9: one concrete returned file opens the workspace and
seeds a single file task. -/
theorem history_restore_files_witness :
    (loadChatSessionFiles "r1" true (Except.ok [sampleFile]) (Except.ok none)
        (initialChatViewState "s1" "")).showAction = true
    ∧ (loadChatSessionFiles "r1" true (Except.ok [sampleFile]) (Except.ok none)
        (initialChatViewState "s1" "")).taskList.length = 1 := by
  have h := history_restore_files_spec "r1" [sampleFile] (Except.ok none)
    (initialChatViewState "s1" "") (by decide)
  exact ⟨h.1, h.2.2.1⟩

/-- C10: in a view mounted from a URL request id (propRequestId
non-empty), no frame sequence ever issues a session create call, and the
same holds for all frames of a follow-up query submitted in that view,
whose turns therefore reach the store only through the terminal-frame
update path. -/
theorem no_create_from_url_restored_view (s : ChatViewState)
    (h : s.propRequestId ≠ "") :
    (∀ (fs : List Frame) (c : ChatItem),
        createCount (processFrames fs c s).2.2 = 0)
    ∧ (∀ (m : String) (files : List String) (rid : String)
        (r : ChatItem × ChatViewState × List Effect),
        sendMessage m files rid s = some r →
        ∀ fs : List Frame, createCount (processFrames fs r.1 r.2.1).2.2 = 0) := by
  constructor
  · intro fs c
    exact processFrames_noCreate_of_prop fs c s h
  · intro m files rid r hsend fs
    apply processFrames_noCreate_of_prop
    rw [sendMessage_propRequestId m files rid s r hsend]
    exact h

/-- Witness for C10: a concrete data frame processed in a view mounted
from the URL request id r0 issues no create call. -/
theorem no_create_from_url_restored_view_witness :
    createCount (processFrames [sampleDataFrame] sampleChat
        (initialChatViewState "s1" "r0")).2.2 = 0 := by
  exact (no_create_from_url_restored_view (initialChatViewState "s1" "r0")
    (by decide)).1 [sampleDataFrame] sampleChat

end TechGenie
